import Mathlib

/-!
Shallow embedding of `src/backend/src/db/user_database.py`: the `User` record
model (validation patterns, password hashing) and the file-backed `UserDatabase`
store, together with theorems settling the specification claims.

Modelling conventions:
* Python strings are Lean `String`s (lists of characters); the regular
  expressions of the source are translated to executable character-list
  predicates, including Python's semantics of `$` (which also matches just
  before one trailing newline) and of `.` (which does not match a newline).
* The cryptographic primitives (`hmac`/SHA-512, bcrypt `hashpw`/`checkpw`) are
  modelled as an ideal injective keyed digest: hash collisions are outside the
  embedding.  The fresh bcrypt salt of `gensalt()` and the wall-clock-derived
  `id` of a user are taken as explicit inputs, since they are nondeterministic
  in the source.
* `jsonpickle.encode`/`decode` are modelled by an abstract file-content type:
  an encoded mapping decodes back to the same mapping; content may also decode
  to a non-mapping value, or fail to decode at all, in which case `decode`
  raises (in the source, `jsonpickle.decode` propagates a `JSONDecodeError`,
  which `try_read_from_file` does not catch).  Exceptions are modelled with
  `Except Unit`.
* The filesystem is an association list from paths to file contents; Python
  `dict`s are insertion-ordered association lists with the source's
  get/set/pop semantics.
-/

/-- Calendar date (`datetime.date`); the claims never inspect it. -/
structure Date where
  year : Nat
  month : Nat
  day : Nat
deriving DecidableEq, Repr

/-- Ideal model of the HMAC-SHA512 digest `hmac.new(key, msg, hashlib.sha512)`:
the digest is identified with its (key, message) pair, i.e. the digest function
is injective (collisions of SHA-512 are outside the embedding). -/
structure Digest where
  key : String
  msg : String
deriving DecidableEq, Repr

/-- Ideal model of a bcrypt hash `hashpw(digest, salt)`: it determines the
digest it was computed from and the salt used. -/
structure BcryptHash where
  digest : Digest
  salt : Nat
deriving DecidableEq, Repr

/-- Source `hmac.new(key.encode(), msg.encode(), hashlib.sha512).digest()` (ideal). -/
def hmacSha512 (key msg : String) : Digest := ⟨key, msg⟩

/-- bcrypt `hashpw` (ideal): records digest and salt. -/
def hashpw (d : Digest) (salt : Nat) : BcryptHash := ⟨d, salt⟩

/-- bcrypt `checkpw` (ideal): re-derives the salt from the stored hash and
compares digests. -/
def checkpw (d : Digest) (stored : BcryptHash) : Bool :=
  decide (d = stored.digest)

/-- Body of `cpf_pattern = ^[0-9]{3}\.[0-9]{3}\.[0-9]{3}\-[0-9]{2}$` applied to
a whole character list (without the trailing-newline allowance of `$`). -/
def cpfCore : List Char → Bool
  | [a, b, c, '.', d, e, f, '.', g, h, i, '-', j, k] =>
      a.isDigit && b.isDigit && c.isDigit && d.isDigit && e.isDigit &&
      f.isDigit && g.isDigit && h.isDigit && i.isDigit && j.isDigit && k.isDigit
  | _ => false

/-- Body of `cep_pattern = ^[0-9]{5}\-[0-9]{3}$` on a whole character list. -/
def cepCore : List Char → Bool
  | [a, b, c, d, e, '-', f, g, h] =>
      a.isDigit && b.isDigit && c.isDigit && d.isDigit && e.isDigit &&
      f.isDigit && g.isDigit && h.isDigit
  | _ => false

/-- Python `\w` on ASCII input: letters, digits and underscore. -/
def isWordChar (c : Char) : Bool := c.isAlphanum || c == '_'

/-- Class `[\w\.]`: a word character or a literal dot. -/
def isWordDot (c : Char) : Bool := isWordChar c || c == '.'

/-- Body of `email_pattern = ^[\w\.]+@[\w\.]+$` on a whole character list:
a nonempty run of word/dot characters, an `@`, a nonempty run of word/dot
characters. -/
def emailCore (cs : List Char) : Bool :=
  let L := cs.takeWhile (fun c => c ≠ '@')
  match cs.dropWhile (fun c => c ≠ '@') with
  | '@' :: R => (!L.isEmpty) && L.all isWordDot && (!R.isEmpty) && R.all isWordDot
  | _ => false

/-- Python `re.match` of an `^…$`-anchored pattern: the body must match the
whole string, or the whole string minus one trailing newline (`$` also matches
just before a final `\n`). -/
def pyFullMatch (core : List Char → Bool) (s : String) : Bool :=
  core s.data || (s.data.getLast? == some '\n' && core s.data.dropLast)

/-- Source `cpf_pattern.match` (as a whole-string test; the pattern is `^…$`). -/
def cpf_match (s : String) : Bool := pyFullMatch cpfCore s

/-- Source `cep_pattern.match` (as a whole-string test; the pattern is `^…$`). -/
def cep_match (s : String) : Bool := pyFullMatch cepCore s

/-- Source `email_pattern.match` (as a whole-string test; the pattern is `^…$`). -/
def email_match (s : String) : Bool := pyFullMatch emailCore s

/-- Source `senha_pattern.match`, i.e. `(?=.{8,})(?=.*[0-9].*)(?=.*[a-zA-Z].*)` at
position 0: the first eight characters exist and contain no newline (`.` does
not match `\n`), and a digit and an ASCII letter each occur before the first
newline. -/
def senha_match (s : String) : Bool :=
  let cs := s.data
  ((cs.take 8).length == 8 && (cs.take 8).all (fun c => c ≠ '\n')) &&
  (cs.takeWhile (fun c => c ≠ '\n')).any Char.isDigit &&
  (cs.takeWhile (fun c => c ≠ '\n')).any Char.isAlpha

/-- The `User` record: one e-commerce user (class `User`). -/
structure User where
  username : String
  nome : String
  sobrenome : String
  cpf : String
  «endereço» : Option String
  CEP : Option String
  data_de_nascimento : Date
  email : String
  senha : BcryptHash
  id : Nat
deriving DecidableEq, Repr

/-- Source `User.add_password`: re-hash `senha` keyed by the user's cpf with a fresh
bcrypt salt (the salt, produced by `gensalt()`, is passed explicitly). -/
def User.add_password (u : User) (senha : String) (salt : Nat) : User :=
  { u with senha := hashpw (hmacSha512 u.cpf senha) salt }

/-- Source `User.check_password`: recompute the keyed digest and `checkpw` it against
the stored hash. -/
def User.check_password (u : User) (senha : String) : Bool :=
  checkpw (hmacSha512 u.cpf senha) u.senha

/-- The CEP guard of `User.__new__`:
`not (CEP is None) and not (cep_pattern.match(CEP))`. -/
def cepRejected : Option String → Bool
  | none => false
  | some c => !cep_match c

/-- Source `User(...)` construction: `User.__new__` validates cpf, CEP, email and
senha in order, yielding `None` on the first failure; on success `__init__`
assigns the fields, hashes the password (via `add_password`) and derives `id`
from the current time, cpf and username.  `salt` stands for the fresh
`gensalt()` value and `idv` for the wall-clock-dependent
`abs(hash((datetime.now(), cpf, username)))`. -/
def User.make (username nome sobrenome cpf : String) (data_de_nascimento : Date)
    (email senha : String) («endereço» CEP : Option String)
    (salt idv : Nat) : Option User :=
  if !cpf_match cpf then none
  else if cepRejected CEP then none
  else if !email_match email then none
  else if !senha_match senha then none
  else some { username, nome, sobrenome, cpf, «endereço», CEP,
              data_de_nascimento, email,
              senha := hashpw (hmacSha512 cpf senha) salt, id := idv }

/-- Python `dict` lookup `m.get(k)` on an insertion-ordered association list. -/
def pyGet {α : Type} (m : List (String × α)) (k : String) : Option α :=
  (m.find? (fun p => p.1 == k)).map (fun p => p.2)

/-- Python `dict` assignment `m[k] = v`: replace the binding in place if the
key exists (a `dict` holds each key at most once), otherwise append
(insertion order preserved). -/
def pySet {α : Type} : List (String × α) → String → α → List (String × α)
  | [], k, v => [(k, v)]
  | p :: tl, k, v => if p.1 == k then (k, v) :: tl else p :: pySet tl k v

/-- Python `m.pop(k, None)`: the removed value (if any) and the remaining map. -/
def pyPop {α : Type} (m : List (String × α)) (k : String) :
    Option α × List (String × α) :=
  (pyGet m k, m.filter (fun p => p.1 != k))

/-- Deletion of a key; used only to build filesystem states in which the
store's file is absent. -/
def pyDel {α : Type} (m : List (String × α)) (k : String) : List (String × α) :=
  m.filter (fun p => p.1 != k)

/-- A file's content, as seen through `jsonpickle`:
`enc m` is `jsonpickle.encode` of a mapping `m` (it decodes back to `m`);
`nonDict` is well-formed content that decodes to a non-`dict` value;
`invalid` is content on which `jsonpickle.decode` raises. -/
inductive FileContent where
  | enc (m : List (String × User))
  | nonDict
  | invalid
deriving DecidableEq, Repr

/-- The filesystem: a mapping from paths to file contents. -/
abbrev FS := List (String × FileContent)

/-- Result of a successful `jsonpickle.decode`: a `dict` or something else. -/
inductive JPValue where
  | dict (m : List (String × User))
  | other
deriving DecidableEq, Repr

/-- Source `jsonpickle.decode`: raises (`Except.error`) on undecodable content. -/
def jsonpickle_decode : FileContent → Except Unit JPValue
  | .enc m => .ok (.dict m)
  | .nonDict => .ok .other
  | .invalid => .error ()

/-- The store (class `UserDatabase`): the in-memory mapping `db` from cpf to
`User`, and the backing file's path. -/
structure UserDatabase where
  db : List (String × User)
  file_path : String
deriving DecidableEq, Repr

/-- Source `UserDatabase.write_to_file`: serialize the whole mapping and overwrite
the file. -/
def UserDatabase.write_to_file (s : UserDatabase) (fs : FS) : FS :=
  pySet fs s.file_path (FileContent.enc s.db)

/-- Source `UserDatabase.try_read_from_file`: if the file is absent, create it by
persisting the current mapping; otherwise decode it (a decode failure
propagates) and replace the in-memory mapping only when the decoded value is a
`dict`. -/
def UserDatabase.try_read_from_file (s : UserDatabase) (fs : FS) :
    Except Unit (UserDatabase × FS) :=
  match pyGet fs s.file_path with
  | none => .ok (s, s.write_to_file fs)
  | some content =>
    match jsonpickle_decode content with
    | .error e => .error e
    | .ok (.dict m) => .ok ({ s with db := m }, fs)
    | .ok .other => .ok (s, fs)

/-- The optional reload performed at the head of every store operation
(`if update: self.try_read_from_file()`). -/
def UserDatabase.reloadIf (s : UserDatabase) (update : Bool) (fs : FS) :
    Except Unit (UserDatabase × FS) :=
  if update then s.try_read_from_file fs else .ok (s, fs)

/-- Source `UserDatabase.__init__(path)`: empty mapping, then an initial
`try_read_from_file`. -/
def UserDatabase.init (path : String) (fs : FS) :
    Except Unit (UserDatabase × FS) :=
  UserDatabase.try_read_from_file { db := [], file_path := path } fs

/-- The linear scan of `get_user_by_username` over `self.db.items()`,
comparing the `username` field. -/
def db_find_by_username (db : List (String × User)) (username : String) :
    Option User :=
  (db.find? (fun p => p.2.username == username)).map (fun p => p.2)

/-- The linear scan of `get_user_by_id`, comparing the `id` field. -/
def db_find_by_id (db : List (String × User)) (idv : Nat) : Option User :=
  (db.find? (fun p => p.2.id == idv)).map (fun p => p.2)

/-- Source `UserDatabase.get_user_by_cpf`. -/
def UserDatabase.get_user_by_cpf (s : UserDatabase) (cpf : String)
    (update : Bool) (fs : FS) : Except Unit (Option User × UserDatabase × FS) :=
  match s.reloadIf update fs with
  | .error e => .error e
  | .ok (s₁, fs₁) => .ok (pyGet s₁.db cpf, s₁, fs₁)

/-- Source `UserDatabase.get_user_by_username`. -/
def UserDatabase.get_user_by_username (s : UserDatabase) (username : String)
    (update : Bool) (fs : FS) : Except Unit (Option User × UserDatabase × FS) :=
  match s.reloadIf update fs with
  | .error e => .error e
  | .ok (s₁, fs₁) => .ok (db_find_by_username s₁.db username, s₁, fs₁)

/-- Source `UserDatabase.get_user_by_id`. -/
def UserDatabase.get_user_by_id (s : UserDatabase) (idv : Nat)
    (update : Bool) (fs : FS) : Except Unit (Option User × UserDatabase × FS) :=
  match s.reloadIf update fs with
  | .error e => .error e
  | .ok (s₁, fs₁) => .ok (db_find_by_id s₁.db idv, s₁, fs₁)

/-- Source `UserDatabase.get_user_list`: all users, in insertion order. -/
def UserDatabase.get_user_list (s : UserDatabase) (update : Bool) (fs : FS) :
    Except Unit (List User × UserDatabase × FS) :=
  match s.reloadIf update fs with
  | .error e => .error e
  | .ok (s₁, fs₁) => .ok (s₁.db.map (fun p => p.2), s₁, fs₁)

/-- A Python value as returned inside `add_user`'s result tuple. -/
inductive PyVal where
  | pyBool (b : Bool)
  | pyStr (s : String)
deriving DecidableEq, Repr

/-- Source `UserDatabase.add_user`: optional reload, duplicate-cpf check (via
`get_user_by_cpf(user.cpf, False)`), duplicate-username check (via
`get_user_by_username(user.nome, False)` — note the source passes the `nome`
field), then insert keyed by cpf, persist, and return `(True, "SUCCESS")`. -/
def UserDatabase.add_user (s : UserDatabase) (user : User) (update : Bool)
    (fs : FS) : Except Unit ((PyVal × PyVal) × UserDatabase × FS) :=
  match s.reloadIf update fs with
  | .error e => .error e
  | .ok (s₁, fs₁) =>
    if (pyGet s₁.db user.cpf).isSome then
      .ok ((.pyBool false, .pyStr "CPF"), s₁, fs₁)
    else if (db_find_by_username s₁.db user.nome).isSome then
      .ok ((.pyBool false, .pyStr "USER"), s₁, fs₁)
    else
      let s₂ : UserDatabase := { s₁ with db := pySet s₁.db user.cpf user }
      .ok ((.pyBool true, .pyStr "SUCCESS"), s₂, s₂.write_to_file fs₁)

/-- Source `UserDatabase.signup`: alias for `add_user` with the default reload. -/
def UserDatabase.signup (s : UserDatabase) (user : User) (fs : FS) :
    Except Unit ((PyVal × PyVal) × UserDatabase × FS) :=
  s.add_user user true fs

/-- Source `UserDatabase.remove_user_by_cpf`: optional reload, `pop` the key (`None`
when absent), persist unconditionally, return the removed user. -/
def UserDatabase.remove_user_by_cpf (s : UserDatabase) (cpf : String)
    (update : Bool) (fs : FS) : Except Unit (Option User × UserDatabase × FS) :=
  match s.reloadIf update fs with
  | .error e => .error e
  | .ok (s₁, fs₁) =>
    let r := pyPop s₁.db cpf
    let s₂ : UserDatabase := { s₁ with db := r.2 }
    .ok (r.1, s₂, s₂.write_to_file fs₁)

/-! ### Basic lemmas about the Python-dict model -/

theorem pyGet_pySet_self {α : Type} (m : List (String × α)) (k : String) (v : α) :
    pyGet (pySet m k v) k = some v := by
  induction m with
  | nil => simp [pySet, pyGet]
  | cons hd tl ih =>
    by_cases hk : hd.1 == k
    · simp [pySet, pyGet, hk]
    · simpa [pySet, pyGet, hk] using ih

theorem pyGet_eq_none_iff {α : Type} (m : List (String × α)) (k : String) :
    pyGet m k = none ↔ ∀ p ∈ m, ¬(p.1 == k) := by
  simp [pyGet, List.find?_eq_none]

theorem filter_ne_of_pyGet_none {α : Type} {m : List (String × α)} {k : String}
    (h : pyGet m k = none) : m.filter (fun p => p.1 != k) = m := by
  rw [List.filter_eq_self]
  intro p hp
  have := (pyGet_eq_none_iff m k).mp h p hp
  simpa [bne] using this

theorem pyGet_pyDel_self {α : Type} (m : List (String × α)) (k : String) :
    pyGet (pyDel m k) k = none := by
  rw [pyGet_eq_none_iff]
  intro p hp
  have := List.of_mem_filter hp
  simpa [bne] using this

/-! ### Lemmas about `try_read_from_file` and `add_user` -/

theorem try_read_of_absent {s : UserDatabase} {fs : FS}
    (h : pyGet fs s.file_path = none) :
    s.try_read_from_file fs = .ok (s, s.write_to_file fs) := by
  simp [UserDatabase.try_read_from_file, h]

theorem try_read_of_enc {s : UserDatabase} {fs : FS} {m : List (String × User)}
    (h : pyGet fs s.file_path = some (.enc m)) :
    s.try_read_from_file fs = .ok ({ s with db := m }, fs) := by
  simp [UserDatabase.try_read_from_file, h, jsonpickle_decode]

theorem try_read_of_nonDict {s : UserDatabase} {fs : FS}
    (h : pyGet fs s.file_path = some .nonDict) :
    s.try_read_from_file fs = .ok (s, fs) := by
  simp [UserDatabase.try_read_from_file, h, jsonpickle_decode]

theorem try_read_of_invalid {s : UserDatabase} {fs : FS}
    (h : pyGet fs s.file_path = some .invalid) :
    s.try_read_from_file fs = .error () := by
  simp [UserDatabase.try_read_from_file, h, jsonpickle_decode]

theorem try_read_path {s : UserDatabase} {fs : FS} {s' : UserDatabase} {fs' : FS}
    (h : s.try_read_from_file fs = .ok (s', fs')) : s'.file_path = s.file_path := by
  unfold UserDatabase.try_read_from_file at h
  split at h
  · simp only [Except.ok.injEq, Prod.mk.injEq] at h
    rw [← h.1]
  · split at h
    · exact absurd h (by simp)
    · simp only [Except.ok.injEq, Prod.mk.injEq] at h
      rw [← h.1]
    · simp only [Except.ok.injEq, Prod.mk.injEq] at h
      rw [← h.1]

/-- When the store's file exists, a successful reload leaves the filesystem
untouched. -/
theorem try_read_fs_of_present {s : UserDatabase} {fs : FS} {c : FileContent}
    {s' : UserDatabase} {fs' : FS} (hc : pyGet fs s.file_path = some c)
    (h : s.try_read_from_file fs = .ok (s', fs')) : fs' = fs := by
  cases c with
  | enc m => rw [try_read_of_enc hc] at h; simp only [Except.ok.injEq, Prod.mk.injEq] at h; exact h.2.symm
  | nonDict => rw [try_read_of_nonDict hc] at h; simp only [Except.ok.injEq, Prod.mk.injEq] at h; exact h.2.symm
  | invalid => rw [try_read_of_invalid hc] at h; exact absurd h (by simp)

/-- Inversion of a non-raising `add_user` call into its three outcomes. -/
theorem add_user_ok_cases {s : UserDatabase} {u : User} {upd : Bool} {fs : FS}
    {ret : PyVal × PyVal} {s' : UserDatabase} {fs' : FS}
    (h : s.add_user u upd fs = .ok (ret, s', fs')) :
    ∃ s₁ fs₁, s.reloadIf upd fs = .ok (s₁, fs₁) ∧
      (((pyGet s₁.db u.cpf).isSome = true
          ∧ ret = (.pyBool false, .pyStr "CPF") ∧ s' = s₁ ∧ fs' = fs₁)
        ∨ (pyGet s₁.db u.cpf = none
            ∧ (db_find_by_username s₁.db u.nome).isSome = true
            ∧ ret = (.pyBool false, .pyStr "USER") ∧ s' = s₁ ∧ fs' = fs₁)
        ∨ (pyGet s₁.db u.cpf = none
            ∧ db_find_by_username s₁.db u.nome = none
            ∧ ret = (.pyBool true, .pyStr "SUCCESS")
            ∧ s' = { s₁ with db := pySet s₁.db u.cpf u }
            ∧ fs' = s'.write_to_file fs₁)) := by
  unfold UserDatabase.add_user at h
  split at h
  · exact absurd h (by simp)
  · rename_i s₁ fs₁ heq
    refine ⟨s₁, fs₁, heq, ?_⟩
    split at h
    · rename_i hc
      simp only [Except.ok.injEq, Prod.mk.injEq] at h
      exact Or.inl ⟨hc, h.1.symm, h.2.1.symm, h.2.2.symm⟩
    · rename_i hc
      split at h
      · rename_i hu
        simp only [Except.ok.injEq, Prod.mk.injEq] at h
        exact Or.inr (Or.inl ⟨Option.not_isSome_iff_eq_none.mp hc, hu,
          h.1.symm, h.2.1.symm, h.2.2.symm⟩)
      · rename_i hu
        simp only [Except.ok.injEq, Prod.mk.injEq] at h
        refine Or.inr (Or.inr ⟨Option.not_isSome_iff_eq_none.mp hc,
          Option.not_isSome_iff_eq_none.mp hu, h.1.symm, h.2.1.symm, ?_⟩)
        rw [← h.2.2, ← h.2.1]

/-! ### Lemmas about the password pattern -/

theorem senha_match_eq_false {s : String}
    (h : s.length < 8 ∨ s.data.all (fun c => !c.isDigit)
      ∨ s.data.all (fun c => !c.isAlpha)) : senha_match s = false := by
  unfold senha_match
  dsimp only
  rcases h with h | h | h
  · have hl : ((s.data.take 8).length == 8) = false := by
      rw [beq_eq_false_iff_ne, List.length_take]
      have hlen : s.data.length = s.length := rfl
      omega
    rw [hl, Bool.false_and, Bool.false_and, Bool.false_and]
  · have hd : (s.data.takeWhile (fun c => c ≠ '\n')).any Char.isDigit = false := by
      rw [List.any_eq_false]
      intro c hc
      have hmem : c ∈ s.data := List.takeWhile_subset _ hc
      simpa using List.all_eq_true.mp h c hmem
    rw [hd, Bool.and_false, Bool.false_and]
  · have ha : (s.data.takeWhile (fun c => c ≠ '\n')).any Char.isAlpha = false := by
      rw [List.any_eq_false]
      intro c hc
      have hmem : c ∈ s.data := List.takeWhile_subset _ hc
      simpa using List.all_eq_true.mp h c hmem
    rw [ha, Bool.and_false]

theorem senha_match_eq_true {s : String} (hl : 8 ≤ s.length)
    (hn : s.data.all (fun c => c ≠ '\n'))
    (hd : s.data.any Char.isDigit) (ha : s.data.any Char.isAlpha) :
    senha_match s = true := by
  unfold senha_match
  dsimp only
  have htw : s.data.takeWhile (fun c => c ≠ '\n') = s.data :=
    List.takeWhile_eq_self_iff.mpr (fun c hc => List.all_eq_true.mp hn c hc)
  have ht8 : ((s.data.take 8).length == 8) = true := by
    rw [beq_iff_eq, List.length_take]
    have hlen : s.data.length = s.length := rfl
    omega
  have ht8' : (s.data.take 8).all (fun c => c ≠ '\n') = true :=
    List.all_eq_true.mpr
      (fun c hc => List.all_eq_true.mp hn c (List.mem_of_mem_take hc))
  rw [htw, ht8, ht8', hd, ha, Bool.and_self, Bool.and_self, Bool.and_self]

/-! ### Claim theorems about the `User` record -/

/-- C4: a successfully constructed record verifies exactly the plaintext it
was constructed with, and after `add_password p` exactly `p` verifies (under
the ideal-digest model of the hashing primitives). -/
theorem verify_password_exact_after_make_or_set
    (username nome sobrenome cpf : String) (d : Date) (email p : String)
    (addr cep : Option String) (salt idv : Nat) (u : User)
    (hmk : User.make username nome sobrenome cpf d email p addr cep salt idv
      = some u) :
    (u.check_password p = true
      ∧ ∀ p' : String, p' ≠ p → u.check_password p' = false)
    ∧ ∀ (w : User) (q : String) (salt' : Nat),
        (w.add_password q salt').check_password q = true
        ∧ ∀ q' : String, q' ≠ q →
            (w.add_password q salt').check_password q' = false := by
  constructor
  · unfold User.make at hmk
    split at hmk
    · exact absurd hmk (by simp)
    · split at hmk
      · exact absurd hmk (by simp)
      · split at hmk
        · exact absurd hmk (by simp)
        · split at hmk
          · exact absurd hmk (by simp)
          · simp only [Option.some.injEq] at hmk
            subst hmk
            constructor
            · simp [User.check_password, checkpw, hashpw, hmacSha512]
            · intro p' hp'
              simp [User.check_password, checkpw, hashpw, hmacSha512, hp']
  · intro w q salt'
    constructor
    · simp [User.add_password, User.check_password, checkpw, hashpw, hmacSha512]
    · intro q' hq'
      simp [User.add_password, User.check_password, checkpw, hashpw,
        hmacSha512, hq']

/-- Witness for `verify_password_exact_after_make_or_set` at a concrete
construction. -/
theorem verify_password_exact_witness :
    (User.make "ana123" "Ana" "Silva" "123.456.789-09" ⟨1990, 1, 1⟩
        "ana@x.com" "senha123" none none 0 0).isSome = true
    ∧ ∃ u, User.make "ana123" "Ana" "Silva" "123.456.789-09" ⟨1990, 1, 1⟩
        "ana@x.com" "senha123" none none 0 0 = some u
      ∧ u.check_password "senha123" = true
      ∧ u.check_password "senha124" = false := by
  refine ⟨by decide, ?_⟩
  obtain ⟨u, hu⟩ : ∃ u, User.make "ana123" "Ana" "Silva" "123.456.789-09"
      ⟨1990, 1, 1⟩ "ana@x.com" "senha123" none none 0 0 = some u :=
    Option.isSome_iff_exists.mp (by decide)
  have h := verify_password_exact_after_make_or_set "ana123" "Ana" "Silva"
    "123.456.789-09" ⟨1990, 1, 1⟩ "ana@x.com" "senha123" none none 0 0 u hu
  exact ⟨u, hu, h.1.1, h.1.2 "senha124" (by decide)⟩

/-- Modelled from the claim's wording, for comparison with the source's
`cpf_match`: exactly three groups of three digits separated by dots, a hyphen,
then two digits — and nothing else (no trailing-newline allowance). -/
def cpfSpecShape (s : String) : Bool := cpfCore s.data

/-- C5 (amended): construction yields no object whenever the source's cpf
pattern rejects the national identifier — i.e. whenever the string is not
`NNN.NNN.NNN-NN` optionally followed by one trailing newline — regardless of
the other arguments. -/
theorem make_none_of_cpf_match_false
    (username nome sobrenome cpf : String) (d : Date) (email senha : String)
    (addr cep : Option String) (salt idv : Nat)
    (h : cpf_match cpf = false) :
    User.make username nome sobrenome cpf d email senha addr cep salt idv
      = none := by
  simp [User.make, h]

/-- Witness for `make_none_of_cpf_match_false`: the spec's own example of an
unpunctuated identifier. -/
theorem make_none_of_cpf_match_false_witness :
    cpf_match "12345678909" = false
    ∧ User.make "ana123" "Ana" "Silva" "12345678909" ⟨1990, 1, 1⟩
        "ana@x.com" "senha123" none none 0 0 = none :=
  ⟨by decide, make_none_of_cpf_match_false "ana123" "Ana" "Silva" "12345678909"
    ⟨1990, 1, 1⟩ "ana@x.com" "senha123" none none 0 0 (by decide)⟩

/-- C5 counterexample: `"123.456.789-09\n"` does not have the shape
`NNN.NNN.NNN-NN` described by the claim, yet Python's `$` matches just before
the trailing newline, so `User.__new__` accepts it and construction yields an
object. -/
theorem cpf_trailing_newline_counterexample :
    cpfSpecShape "123.456.789-09\n" = false
    ∧ (User.make "ana123" "Ana" "Silva" "123.456.789-09\n" ⟨1990, 1, 1⟩
        "ana@x.com" "senha123" none none 0 0).isSome = true := by
  constructor
  · decide
  · decide

/-- C6 (amended): a password shorter than 8 characters, or without a digit, or
without an ASCII letter, makes construction yield no object; conversely any
newline-free password of length at least 8 containing a digit and an ASCII
letter passes the password pattern. -/
theorem password_validation
    (username nome sobrenome cpf : String) (d : Date) (email senha : String)
    (addr cep : Option String) (salt idv : Nat) :
    ((senha.length < 8 ∨ senha.data.all (fun c => !c.isDigit)
        ∨ senha.data.all (fun c => !c.isAlpha)) →
      User.make username nome sobrenome cpf d email senha addr cep salt idv
        = none)
    ∧ ∀ q : String, 8 ≤ q.length → q.data.all (fun c => c ≠ '\n') →
        q.data.any Char.isDigit → q.data.any Char.isAlpha →
        senha_match q = true := by
  constructor
  · intro h
    have hs := senha_match_eq_false h
    simp [User.make, hs]
  · intro q h1 h2 h3 h4
    exact senha_match_eq_true h1 h2 h3 h4

/-- Witness for `password_validation`: a 7-character password is rejected, a
well-formed one passes the pattern. -/
theorem password_validation_witness :
    User.make "ana123" "Ana" "Silva" "123.456.789-09" ⟨1990, 1, 1⟩
      "ana@x.com" "short1a" none none 0 0 = none
    ∧ senha_match "senha123" = true :=
  ⟨(password_validation "ana123" "Ana" "Silva" "123.456.789-09" ⟨1990, 1, 1⟩
      "ana@x.com" "short1a" none none 0 0).1 (Or.inl (by decide)),
   (password_validation "ana123" "Ana" "Silva" "123.456.789-09" ⟨1990, 1, 1⟩
      "ana@x.com" "short1a" none none 0 0).2 "senha123" (by decide) (by decide)
      (by decide) (by decide)⟩

/-- C6 counterexample: `"a1\nbcdefgh"` has length 10, a digit and a letter,
yet `(?=.{8,})` fails because `.` does not match the newline among the first
eight characters: the password check rejects it and construction (with
otherwise valid fields) yields no object. -/
theorem senha_newline_counterexample :
    8 ≤ ("a1\nbcdefgh" : String).length
    ∧ ("a1\nbcdefgh" : String).data.any Char.isDigit = true
    ∧ ("a1\nbcdefgh" : String).data.any Char.isAlpha = true
    ∧ senha_match "a1\nbcdefgh" = false
    ∧ User.make "ana123" "Ana" "Silva" "123.456.789-09" ⟨1990, 1, 1⟩
        "ana@x.com" "a1\nbcdefgh" none none 0 0 = none := by
  refine ⟨by decide, by decide, by decide, by decide, by decide⟩

/-! ### Concrete sample data for witnesses and counterexamples -/

/-- A stored user whose username is `"Bob"`. -/
def wBob : User :=
  { username := "Bob", nome := "Roberto", sobrenome := "Silva",
    cpf := "111.111.111-11", «endereço» := none, CEP := none,
    data_de_nascimento := ⟨1990, 1, 1⟩, email := "bob@x.com",
    senha := hashpw (hmacSha512 "111.111.111-11" "abc12345") 0, id := 7 }

/-- A new user whose `nome` ("Bob") collides with `wBob`'s username. -/
def uAnaBob : User :=
  { wBob with username := "ana123", nome := "Bob", cpf := "222.222.222-22" }

/-- A new user with no name collision, sharing `uAnaBob`'s cpf. -/
def uCarol : User :=
  { wBob with username := "carol9", nome := "Carol", cpf := "222.222.222-22" }

/-- A second user sharing `uCarol`'s cpf. -/
def uDia : User :=
  { wBob with username := "dd1", nome := "Dia", cpf := "222.222.222-22" }

/-- A new user sharing `wBob`'s cpf. -/
def uDupBob : User :=
  { wBob with username := "bobby", nome := "Chico" }

/-- A one-user mapping holding `wBob`. -/
def dbOne : List (String × User) := [("111.111.111-11", wBob)]

/-- Mapping `dbOne` after inserting `uCarol`. -/
def dbTwo : List (String × User) := dbOne ++ [("222.222.222-22", uCarol)]

/-- A filesystem whose file `"p"` holds the encoding of `dbOne`. -/
def fsOne : FS := [("p", .enc dbOne)]

/-- An empty store against path `"p"`. -/
def sEmptyP : UserDatabase := ⟨[], "p"⟩

/-- A store holding `dbOne` against path `"p"`. -/
def sOneP : UserDatabase := ⟨dbOne, "p"⟩

/-- A store holding `dbTwo` against path `"p"`. -/
def sTwoP : UserDatabase := ⟨dbTwo, "p"⟩

/-! ### Claim theorems about the store -/

/-- C7: after persisting, a fresh store constructed against the same path
lists exactly the original store's records (in insertion order). -/
theorem persist_roundtrip_get_user_list (s : UserDatabase) (fs : FS) :
    ((UserDatabase.init s.file_path (s.write_to_file fs)).bind
      (fun r => (r.1.get_user_list true r.2).map (fun q => q.1)))
    = .ok (s.db.map (fun p => p.2)) := by
  have h1 : pyGet (s.write_to_file fs) s.file_path = some (.enc s.db) :=
    pyGet_pySet_self fs s.file_path _
  have h2 : UserDatabase.init s.file_path (s.write_to_file fs)
      = .ok (⟨s.db, s.file_path⟩, s.write_to_file fs) := by
    unfold UserDatabase.init
    exact try_read_of_enc h1
  have h3 : (⟨s.db, s.file_path⟩ : UserDatabase).try_read_from_file
      (s.write_to_file fs) = .ok (⟨s.db, s.file_path⟩, s.write_to_file fs) :=
    try_read_of_enc h1
  rw [h2]
  simp [UserDatabase.get_user_list, UserDatabase.reloadIf, h3, Except.bind,
    Except.map]

/-- C8 (amended): `try_read_from_file` replaces the mapping when the file
decodes to a mapping; keeps everything unchanged when it decodes to a
non-mapping; propagates the decode error (raises) on undecodable content; and
on an absent file keeps the in-memory mapping while re-creating the file with
that mapping's encoding (not necessarily empty). -/
theorem try_read_from_file_behavior (s : UserDatabase) (fs : FS)
    (m : List (String × User)) :
    s.try_read_from_file (pySet fs s.file_path (.enc m))
      = .ok ({ s with db := m }, pySet fs s.file_path (.enc m))
    ∧ s.try_read_from_file (pySet fs s.file_path .nonDict)
      = .ok (s, pySet fs s.file_path .nonDict)
    ∧ s.try_read_from_file (pySet fs s.file_path .invalid) = .error ()
    ∧ s.try_read_from_file (pyDel fs s.file_path)
      = .ok (s, pySet (pyDel fs s.file_path) s.file_path (.enc s.db)) :=
  ⟨try_read_of_enc (pyGet_pySet_self fs s.file_path _),
   try_read_of_nonDict (pyGet_pySet_self fs s.file_path _),
   try_read_of_invalid (pyGet_pySet_self fs s.file_path _),
   try_read_of_absent (pyGet_pyDel_self fs s.file_path)⟩

/-- C8 counterexample: on undecodable content the reload raises instead of
silently keeping the old mapping, and on an absent file with a non-empty
in-memory mapping the created file holds that mapping's encoding, not an
empty mapping. -/
theorem try_read_raises_counterexample :
    UserDatabase.try_read_from_file ⟨[], "p"⟩ [("p", .invalid)] = .error ()
    ∧ UserDatabase.try_read_from_file sOneP []
        = .ok (sOneP, [("p", .enc dbOne)])
    ∧ dbOne ≠ [] := by
  refine ⟨rfl, rfl, by decide⟩

/-- C1 (amended): if a first `add_user` call succeeds, a second call with a
record sharing the same cpf returns `(False, "CPF")`; in general `add_user`
(with reload) fails with `"CPF"` whenever the mapping as reloaded from the
file contains the new record's cpf. -/
theorem add_user_duplicate_cpf :
    (∀ (s : UserDatabase) (fs : FS) (u₁ u₂ : User) (s₁ : UserDatabase)
        (fs₁ : FS), u₂.cpf = u₁.cpf →
        s.add_user u₁ true fs
          = .ok ((.pyBool true, .pyStr "SUCCESS"), s₁, fs₁) →
        (s₁.add_user u₂ true fs₁).map (fun r => r.1)
          = .ok (.pyBool false, .pyStr "CPF"))
    ∧ ∀ (s : UserDatabase) (fs : FS) (u : User) (sr : UserDatabase) (fsr : FS),
        s.try_read_from_file fs = .ok (sr, fsr) →
        (pyGet sr.db u.cpf).isSome = true →
        (s.add_user u true fs).map (fun r => r.1)
          = .ok (.pyBool false, .pyStr "CPF") := by
  constructor
  · intro s fs u₁ u₂ s₁ fs₁ hcpf h
    obtain ⟨sa, fsa, hreload, hcases⟩ := add_user_ok_cases h
    rcases hcases with ⟨_, hret, _, _⟩ | ⟨_, _, hret, _, _⟩ |
      ⟨hc, hu, _, hs', hfs'⟩
    · exact absurd hret (by decide)
    · exact absurd hret (by decide)
    · subst hs'
      subst hfs'
      have hfile : pyGet
          (({ sa with db := pySet sa.db u₁.cpf u₁ } :
            UserDatabase).write_to_file fsa)
          ({ sa with db := pySet sa.db u₁.cpf u₁ } :
            UserDatabase).file_path
          = some (.enc (pySet sa.db u₁.cpf u₁)) :=
        pyGet_pySet_self fsa _ _
      have hre := try_read_of_enc hfile
      have hget : (pyGet (pySet sa.db u₁.cpf u₁) u₂.cpf).isSome = true := by
        rw [hcpf, pyGet_pySet_self]; rfl
      simp [UserDatabase.add_user, UserDatabase.reloadIf, hre, hget,
        Except.map]
  · intro s fs u sr fsr hre hsome
    simp [UserDatabase.add_user, UserDatabase.reloadIf, hre, hsome,
      Except.map]

/-- Witness for `add_user_duplicate_cpf`: a concrete successful insertion
followed by an insertion with the same cpf, which fails with `"CPF"`. -/
theorem add_user_duplicate_cpf_witness :
    uDia.cpf = uCarol.cpf
    ∧ sEmptyP.add_user uCarol true fsOne
        = .ok ((.pyBool true, .pyStr "SUCCESS"), sTwoP, [("p", .enc dbTwo)])
    ∧ (sTwoP.add_user uDia true [("p", .enc dbTwo)]).map (fun r => r.1)
        = .ok (.pyBool false, .pyStr "CPF") :=
  ⟨rfl, rfl, add_user_duplicate_cpf.1 sEmptyP fsOne uCarol uDia sTwoP
    [("p", .enc dbTwo)] rfl rfl⟩

/-- C1 counterexample: the claim quantifies over every store state and only
asks that the two records share a cpf.  Starting from a store whose file holds
`wBob` (username `"Bob"`), a first call with `uAnaBob` (nome `"Bob"`, cpf
`222.222.222-22`) fails with `"USER"`, so nothing is inserted, and the second
call with `uCarol` (same cpf `222.222.222-22`) then returns
`(True, "SUCCESS")`, not `(False, "CPF")`. -/
theorem add_user_duplicate_cpf_counterexample :
    uAnaBob.cpf = uCarol.cpf
    ∧ (sEmptyP.add_user uAnaBob true fsOne).map (fun r => r.1)
        = .ok (.pyBool false, .pyStr "USER")
    ∧ ((sEmptyP.add_user uAnaBob true fsOne).bind
        (fun r => r.2.1.add_user uCarol true r.2.2)).map (fun r => r.1)
        = .ok (.pyBool true, .pyStr "SUCCESS")
    ∧ ((.pyBool true, .pyStr "SUCCESS") : PyVal × PyVal)
        ≠ (.pyBool false, .pyStr "CPF") := by
  refine ⟨rfl, rfl, rfl, by decide⟩

/-- C2: given a non-raising `add_user` call (default reload) that does not
fail with `"CPF"`, the call returns `(False, "USER")` exactly when the public
lookup-by-username, applied to the new record's `nome` field on the same
initial state, finds a record. -/
theorem add_user_user_reason_iff (s : UserDatabase) (u : User) (fs : FS)
    (ret : PyVal × PyVal) (s' : UserDatabase) (fs' : FS)
    (h : s.add_user u true fs = .ok (ret, s', fs'))
    (hne : ret ≠ (.pyBool false, .pyStr "CPF")) :
    ret = (.pyBool false, .pyStr "USER")
      ↔ (s.get_user_by_username u.nome true fs).map (fun r => r.1.isSome)
          = .ok true := by
  obtain ⟨s₁, fs₁, hreload, hcases⟩ := add_user_ok_cases h
  have hlookup : s.get_user_by_username u.nome true fs
      = .ok (db_find_by_username s₁.db u.nome, s₁, fs₁) := by
    simp [UserDatabase.get_user_by_username, hreload]
  rcases hcases with ⟨hc, hret, _, _⟩ | ⟨hc, hu, hret, _, _⟩ |
    ⟨hc, hu, hret, _, _⟩
  · exact absurd hret hne
  · subst hret
    constructor
    · intro _
      rw [hlookup]
      simp [Except.map, hu]
    · intro _
      rfl
  · subst hret
    constructor
    · intro hfalse
      exact absurd hfalse (by decide)
    · intro hlk
      rw [hlookup] at hlk
      simp [Except.map, hu] at hlk

/-- Witness for `add_user_user_reason_iff`: `uAnaBob`'s nome `"Bob"` collides
with the stored username `"Bob"`, so the call fails with `"USER"`. -/
theorem add_user_user_reason_iff_witness :
    sEmptyP.add_user uAnaBob true fsOne
      = .ok ((.pyBool false, .pyStr "USER"), sOneP, fsOne)
    ∧ (((.pyBool false, .pyStr "USER") : PyVal × PyVal)
          = (.pyBool false, .pyStr "USER")
        ↔ (sEmptyP.get_user_by_username uAnaBob.nome true fsOne).map
            (fun r => r.1.isSome) = .ok true) :=
  ⟨rfl, add_user_user_reason_iff sEmptyP uAnaBob fsOne
    (.pyBool false, .pyStr "USER") sOneP fsOne rfl (by decide)⟩

/-- C3 (amended): when `add_user` does not fail, it returns
`(True, "SUCCESS")` (a boolean then a string, in that order), the new record
is in the resulting mapping under its cpf, and the file holds the encoding of
the whole resulting mapping. -/
theorem add_user_success_inserts_persists (s : UserDatabase) (u : User)
    (upd : Bool) (fs : FS) (ret : PyVal × PyVal) (s' : UserDatabase) (fs' : FS)
    (h : s.add_user u upd fs = .ok (ret, s', fs'))
    (h1 : ret ≠ (.pyBool false, .pyStr "CPF"))
    (h2 : ret ≠ (.pyBool false, .pyStr "USER")) :
    ret = (.pyBool true, .pyStr "SUCCESS")
    ∧ pyGet s'.db u.cpf = some u
    ∧ pyGet fs' s'.file_path = some (.enc s'.db) := by
  obtain ⟨s₁, fs₁, _, hcases⟩ := add_user_ok_cases h
  rcases hcases with ⟨_, hret, _, _⟩ | ⟨_, _, hret, _, _⟩ |
    ⟨_, _, hret, hs', hfs'⟩
  · exact absurd hret h1
  · exact absurd hret h2
  · subst hs'
    subst hfs'
    exact ⟨hret, pyGet_pySet_self s₁.db u.cpf u, pyGet_pySet_self fs₁ _ _⟩

/-- Witness for `add_user_success_inserts_persists` at a concrete successful
insertion. -/
theorem add_user_success_inserts_persists_witness :
    sEmptyP.add_user uCarol true fsOne
      = .ok ((.pyBool true, .pyStr "SUCCESS"), sTwoP, [("p", .enc dbTwo)])
    ∧ (((.pyBool true, .pyStr "SUCCESS") : PyVal × PyVal)
        = (.pyBool true, .pyStr "SUCCESS")
      ∧ pyGet sTwoP.db uCarol.cpf = some uCarol
      ∧ pyGet ([("p", .enc dbTwo)] : FS) sTwoP.file_path
          = some (.enc sTwoP.db)) :=
  ⟨rfl, add_user_success_inserts_persists sEmptyP uCarol true fsOne
    (.pyBool true, .pyStr "SUCCESS") sTwoP [("p", .enc dbTwo)] rfl
    (by decide) (by decide)⟩

/-- C3 counterexample: the result pair of a successful `add_user` is
`(True, "SUCCESS")` — the boolean first — not the pair `("SUCCESS", True)`
stated by the claim. -/
theorem add_user_pair_order_counterexample :
    (sEmptyP.add_user uCarol true fsOne).map (fun r => r.1)
      = .ok (.pyBool true, .pyStr "SUCCESS")
    ∧ ((.pyBool true, .pyStr "SUCCESS") : PyVal × PyVal)
        ≠ (.pyStr "SUCCESS", .pyBool true) := by
  refine ⟨rfl, by decide⟩

/-- C9 (amended): on a store whose file holds the encoding of its in-memory
mapping, removing an absent cpf returns `None`, leaves the store unchanged,
and rewrites the file with unchanged content. -/
theorem remove_absent_cpf (s : UserDatabase) (fs : FS) (cpf : String)
    (hfile : pyGet fs s.file_path = some (.enc s.db))
    (hid : pyGet s.db cpf = none) :
    s.remove_user_by_cpf cpf true fs
      = .ok (none, s, pySet fs s.file_path (.enc s.db))
    ∧ pyGet (pySet fs s.file_path (.enc s.db)) s.file_path
        = pyGet fs s.file_path := by
  have hre : s.try_read_from_file fs = .ok (s, fs) := try_read_of_enc hfile
  constructor
  · simp [UserDatabase.remove_user_by_cpf, UserDatabase.reloadIf, hre, pyPop,
      hid, filter_ne_of_pyGet_none hid, UserDatabase.write_to_file]
  · rw [pyGet_pySet_self, hfile]

/-- Witness for `remove_absent_cpf` at a concrete consistent store. -/
theorem remove_absent_cpf_witness :
    pyGet fsOne sOneP.file_path = some (.enc sOneP.db)
    ∧ pyGet sOneP.db "333.333.333-33" = none
    ∧ (sOneP.remove_user_by_cpf "333.333.333-33" true fsOne
        = .ok (none, sOneP, pySet fsOne sOneP.file_path (.enc sOneP.db))
      ∧ pyGet (pySet fsOne sOneP.file_path (.enc sOneP.db)) sOneP.file_path
          = pyGet fsOne sOneP.file_path) :=
  ⟨rfl, rfl, remove_absent_cpf sOneP fsOne "333.333.333-33" rfl rfl⟩

/-- C9 counterexample: the claim quantifies over every store; on a store whose
file content is undecodable, `remove_user_by_cpf` (with its default reload)
raises instead of returning `None` and persisting. -/
theorem remove_raises_counterexample :
    UserDatabase.remove_user_by_cpf ⟨[], "p"⟩ "000.000.000-00" true
      [("p", FileContent.invalid)] = .error () := rfl

/-- C10 (amended): a failing `add_user` (reason `"CPF"` or `"USER"`) whose
store file exists performs no insertion and no write: the final filesystem is
the initial one, and the final mapping is exactly the mapping as loaded (when
reloading) or held (when not) at the duplicate check. -/
theorem add_user_failure_atomic (s : UserDatabase) (u : User) (upd : Bool)
    (fs : FS) (ret : PyVal × PyVal) (s' : UserDatabase) (fs' : FS)
    (c : FileContent)
    (h : s.add_user u upd fs = .ok (ret, s', fs'))
    (hret : ret = (.pyBool false, .pyStr "CPF")
      ∨ ret = (.pyBool false, .pyStr "USER"))
    (hfile : pyGet fs s.file_path = some c) :
    fs' = fs
    ∧ (upd = true → s.try_read_from_file fs = .ok (s', fs))
    ∧ (upd = false → s' = s) := by
  obtain ⟨s₁, fs₁, hreload, hcases⟩ := add_user_ok_cases h
  have main : s' = s₁ ∧ fs' = fs₁ := by
    rcases hcases with ⟨_, _, hs', hfs'⟩ | ⟨_, _, _, hs', hfs'⟩ |
      ⟨_, _, hr, _, _⟩
    · exact ⟨hs', hfs'⟩
    · exact ⟨hs', hfs'⟩
    · subst hr
      rcases hret with hret | hret <;> exact absurd hret (by decide)
  rw [main.1, main.2]
  cases upd with
  | false =>
    simp only [UserDatabase.reloadIf, Bool.false_eq_true, if_false,
      Except.ok.injEq, Prod.mk.injEq] at hreload
    obtain ⟨h1, h2⟩ := hreload
    exact ⟨h2.symm, fun ht => absurd ht (by decide), fun _ => h1.symm⟩
  | true =>
    simp only [UserDatabase.reloadIf, if_true] at hreload
    have hfs : fs₁ = fs := try_read_fs_of_present hfile hreload
    exact ⟨hfs, fun _ => hfs ▸ hreload, fun hf => absurd hf (by decide)⟩

/-- Witness for `add_user_failure_atomic` at a concrete `"CPF"` failure. -/
theorem add_user_failure_atomic_witness :
    sEmptyP.add_user uDupBob true fsOne
      = .ok ((.pyBool false, .pyStr "CPF"), sOneP, fsOne)
    ∧ (fsOne = fsOne
      ∧ (true = true → sEmptyP.try_read_from_file fsOne = .ok (sOneP, fsOne))
      ∧ (true = false → sOneP = sEmptyP)) :=
  ⟨rfl, add_user_failure_atomic sEmptyP uDupBob true fsOne
    (.pyBool false, .pyStr "CPF") sOneP fsOne (.enc dbOne) rfl
    (Or.inl rfl) rfl⟩

/-- C10 counterexample: when the store's file is absent, even a failing
`add_user` call writes the file (the reload re-creates it with the current
mapping), so "the persisted file is not rewritten by that call" does not hold
without the file-exists proviso. -/
theorem add_user_failure_writes_file_counterexample :
    sOneP.add_user uDupBob true []
      = .ok ((.pyBool false, .pyStr "CPF"), sOneP, [("p", .enc dbOne)])
    ∧ ([("p", FileContent.enc dbOne)] : FS) ≠ ([] : FS) := by
  refine ⟨rfl, by decide⟩
